import Mathlib

/-!
Verification of the SpaceObjectTracker detection pipeline.

This file shallowly embeds the pipeline-relevant Python functions of the
repository in Lean 4 and proves / refutes the frozen claims about them.

Modelling conventions:
* Python floats are modelled as exact rationals (ℚ); the decimal literals
  appearing in the sources are exact in ℚ.
* `id` (a fresh UUID) and `timestamp` fields are omitted from the embedded
  `Detection` / `DetectionResult` records: they are opaque, nondeterministic
  identifiers that no claim constrains ("identical" outputs in the claims
  means identical label/coordinate/confidence data).
* OpenCV primitives (`imread`, `inRange`, `findContours`, `contourArea`,
  `boundingRect`, pixel counting) and the neural detector are external
  collaborators; their outputs (decoded image dimensions, contour lists with
  areas and bounding rectangles, raw boxes, mask pixel counts) are supplied
  by an environment record, and the embedded code is the exact Python logic
  consuming them.
* Python's salted string `hash` is modelled as an arbitrary integer-valued
  function supplied by the environment (`%` on a positive modulus agrees
  with Lean's `Int.emod`).
-/

/-- One detection record, as assembled by the Python sources
(`id`/`timestamp` omitted, see header). -/
structure Detection where
  label : String
  confidence : ℚ
  x : ℚ
  y : ℚ
  width : ℚ
  height : ℚ
  color : String
  context : String
  originalClass : Option String := none
  forced : Bool := false
  deriving Repr, DecidableEq

/-- The result envelope returned by every detection entry point.  Python
dicts that omit a key are modelled by the default value (`""` / `[]`). -/
structure DetectionResult where
  success : Bool
  model : String := ""
  method : String := ""
  detections : List Detection
  count : ℕ
  error : String := ""
  deriving Repr, DecidableEq

/-- Does the pattern occur at the head of the list? (helper for Python's
`in` on strings). -/
def leadEq : List Char → List Char → Bool
  | [], _ => true
  | _ :: _, [] => false
  | a :: as, b :: bs => a == b && leadEq as bs

/-- Does `needle` occur as a contiguous sublist of the second argument? -/
def hasSubList (needle : List Char) : List Char → Bool
  | [] => leadEq needle []
  | c :: rest => leadEq needle (c :: rest) || hasSubList needle rest

/-- Python's `needle in hay` on strings. -/
def strIn (needle hay : String) : Bool :=
  hasSubList needle.data hay.data

/-- Python's `str.lower()` (ASCII, which covers every label in the sources). -/
def lowerStr (s : String) : String :=
  ⟨s.data.map Char.toLower⟩

/-- `TARGET_CATEGORIES` — identical in every source file. -/
def TARGET_CATEGORIES : List String :=
  ["toolbox", "fire extinguisher", "oxygen tank"]

/-- `OBJECT_COLORS` dict together with its `.get(label, default)` access —
identical in every source file. -/
def objectColor (label : String) : String :=
  if label == "fire extinguisher" then "#f44336"
  else if label == "oxygen tank" then "#2196f3"
  else if label == "toolbox" then "#ffc107"
  else "#9c27b0"

/-- `generate_context` — identical in every source file. -/
def generate_context (label : String) : String :=
  let l := lowerStr label
  if strIn "fire" l || strIn "extinguisher" l then
    "Critical safety equipment. Check pressure gauge and ensure easy access."
  else if strIn "oxygen" l || strIn "tank" l then
    "Life support equipment. Verify pressure levels and connection integrity."
  else if strIn "tool" l || strIn "box" l then
    "Equipment storage. Ensure proper organization and inventory completion."
  else
    "Space station component. Monitor for proper functionality."

/-- `YOLO_CLASS_MAPPING` (yolo_detector_pure.py) / `yolo_class_mapping`
(yolo_detector.py) — the fixed COCO-class-id → category table. -/
def YOLO_CLASS_MAPPING : List (ℕ × String) :=
  [(24, "toolbox"), (26, "toolbox"), (28, "toolbox"), (33, "toolbox"),
   (73, "toolbox"),
   (39, "fire extinguisher"), (41, "fire extinguisher"),
   (44, "fire extinguisher"), (76, "fire extinguisher"),
   (32, "oxygen tank"), (45, "oxygen tank")]

/-- STEP 1 of `map_to_target_category`: first target category whose name is
a substring of the lowercased raw label. -/
def firstCat : List String → String → Option String
  | [], _ => none
  | c :: cs, lower => if strIn c lower then some c else firstCat cs lower

/-- STEP 3 of `map_to_target_category`: the per-category synonym check, in
source order toolbox → fire extinguisher → oxygen tank. -/
def synonymMatch (lower : String) : Option String :=
  if ["tool", "box", "container", "kit", "bag"].any (fun w => strIn w lower) then
    some "toolbox"
  else if ["fire", "extinguisher", "bottle", "cylinder"].any (fun w => strIn w lower) then
    some "fire extinguisher"
  else if ["oxygen", "tank", "gas", "canister", "tube"].any (fun w => strIn w lower) then
    some "oxygen tank"
  else
    none

/-- `map_to_target_category` — textually identical in yolo_detector.py and
yolo_detector_pure.py.  Steps: substring of the lowercased label, then the
class-id table, then synonyms, else `None`. -/
def map_to_target_category (original_class : String) (class_id : Option ℕ) :
    Option String :=
  let lower := lowerStr original_class
  match firstCat TARGET_CATEGORIES lower with
  | some c => some c
  | none =>
    match class_id with
    | some cid =>
      match YOLO_CLASS_MAPPING.lookup cid with
      | some c => some c
      | none => synonymMatch lower
    | none => synonymMatch lower

/-- A connected region produced by `cv2.findContours`, reduced to the data
the Python code reads from it: `cv2.contourArea` and `cv2.boundingRect`
(pixel x, y, width, height). -/
structure Contour where
  area : ℚ
  x : ℕ
  y : ℕ
  w : ℕ
  h : ℕ
  deriving Repr, DecidableEq

/-- `aspect_ratio = float(w) / h if h > 0 else 0` — shared by all contour
passes in the sources. -/
def aspectOf (c : Contour) : ℚ :=
  if 0 < c.h then (c.w : ℚ) / (c.h : ℚ) else 0

/-- The fixed three synthetic detections that every fallback table in the
repository emits (identical literals in yolo11n_detector.py
`create_fallback_detections`, basic_detector.py `create_fallback_detections`
and yolo_detector_pure.py's ultralytics-unavailable branch). -/
def fallbackDetections3 : List Detection :=
  [{ label := "toolbox", confidence := 0.85, x := 0.2, y := 0.2,
     width := 0.4, height := 0.3, color := objectColor "toolbox",
     context := generate_context "toolbox", forced := true },
   { label := "fire extinguisher", confidence := 0.92, x := 0.7, y := 0.3,
     width := 0.25, height := 0.5, color := objectColor "fire extinguisher",
     context := generate_context "fire extinguisher", forced := true },
   { label := "oxygen tank", confidence := 0.78, x := 0.4, y := 0.6,
     width := 0.3, height := 0.3, color := objectColor "oxygen tank",
     context := generate_context "oxygen tank", forced := true }]

namespace Yolo11n

/-- What yolo11n_detector.py reads out of a successfully decoded image:
its dimensions and, per colour mask (and for the edge pass), the contour
list extracted by OpenCV. -/
structure HSVImage where
  width : ℕ
  height : ℕ
  redContours : List Contour
  blueContours : List Contour
  yellowContours : List Contour
  edgeContours : List Contour
  deriving Repr, DecidableEq

/-- Environment of `detect_with_color_and_size`: library availability,
path existence, and the decoded image (`none` = `cv2.imread` failed). -/
structure Env where
  opencvAvailable : Bool
  imageExists : Bool
  imagePath : String
  img : Option HSVImage
  deriving Repr, DecidableEq

/-- `create_fallback_detections` (yolo11n_detector.py, called with the
default `model_path=None`, hence model name `yolo11n.pt`). -/
def create_fallback_detections : DetectionResult :=
  { success := true, model := "yolo11n.pt", method := "fallback",
    detections := fallbackDetections3, count := 3 }

/-- The per-category validity test and confidence formula of the colour
pass (yolo11n_detector.py lines 182-202): returns the confidence when the
shape filter accepts the contour. -/
def colorConf (lab : String) (c : Contour) : Option ℚ :=
  if lab == "fire extinguisher" then
    if aspectOf c < 0.8 ∧ 50 < c.h then
      some (min 0.95 (0.5 + c.area / 10000))
    else none
  else if lab == "oxygen tank" then
    if 0.5 < aspectOf c ∧ aspectOf c < 1.5 then
      some (min 0.90 (0.5 + c.area / 15000))
    else none
  else if lab == "toolbox" then
    if 0.8 < aspectOf c ∧ 50 < c.w then
      some (min 0.92 (0.5 + c.area / 12000))
    else none
  else none

/-- One iteration of the colour-pass contour loop: minimum-area filter,
shape filter, threshold test, then the normalized detection. -/
def acceptColor (lab : String) (W H : ℕ) (t : ℚ) (c : Contour) :
    Option Detection :=
  if c.area < 300 then none
  else
    match colorConf lab c with
    | none => none
    | some conf =>
      if t < conf then
        some { label := lab, confidence := conf,
               x := (c.x : ℚ) / (W : ℚ), y := (c.y : ℚ) / (H : ℚ),
               width := (c.w : ℚ) / (W : ℚ), height := (c.h : ℚ) / (H : ℚ),
               color := objectColor lab, context := generate_context lab }
      else none

/-- The colour-pass loop over one mask's contour list. -/
def passColor (lab : String) (W H : ℕ) (t : ℚ) : List Contour → List Detection
  | [] => []
  | c :: cs =>
    match acceptColor lab W H t c with
    | some d => d :: passColor lab W H t cs
    | none => passColor lab W H t cs

/-- The whole colour pass, iterating the `masks` dict in its Python
insertion order: fire extinguisher (red), oxygen tank (blue), toolbox
(yellow). -/
def colorPass (img : HSVImage) (t : ℚ) : List Detection :=
  passColor "fire extinguisher" img.width img.height t img.redContours ++
  passColor "oxygen tank" img.width img.height t img.blueContours ++
  passColor "toolbox" img.width img.height t img.yellowContours

/-- Shape classification of the edge-based second pass (lines 255-263):
label and fixed confidence, or nothing. -/
def shapeClass (c : Contour) : Option (String × ℚ) :=
  if aspectOf c < 0.7 ∧ c.w < c.h then some ("fire extinguisher", 0.7)
  else if 0.9 < aspectOf c ∧ aspectOf c < 1.1 then some ("oxygen tank", 0.6)
  else if 1.2 < aspectOf c then some ("toolbox", 0.65)
  else none

/-- One iteration of the edge-pass contour loop. -/
def acceptShape (W H : ℕ) (t : ℚ) (c : Contour) : Option Detection :=
  if c.area < 500 then none
  else
    match shapeClass c with
    | none => none
    | some (lab, conf) =>
      if t < conf then
        some { label := lab, confidence := conf,
               x := (c.x : ℚ) / (W : ℚ), y := (c.y : ℚ) / (H : ℚ),
               width := (c.w : ℚ) / (W : ℚ), height := (c.h : ℚ) / (H : ℚ),
               color := objectColor lab, context := generate_context lab }
      else none

/-- The edge-based second-chance pass. -/
def shapePass (img : HSVImage) (t : ℚ) : List Detection :=
  img.edgeContours.filterMap (acceptShape img.width img.height t)

/-- `detect_with_color_and_size` (yolo11n_detector.py).  Missing OpenCV,
an undecodable image, and exhausted passes all land on the synthetic
fallback; only a missing path is a failure. -/
def detect_with_color_and_size (env : Env) (t : ℚ) : DetectionResult :=
  if !env.opencvAvailable then create_fallback_detections
  else if !env.imageExists then
    { success := false, detections := [], count := 0,
      error := "Image file not found: " ++ env.imagePath }
  else
    match env.img with
    | none => create_fallback_detections
    | some img =>
      let cd := colorPass img t
      if cd.isEmpty then
        let sd := shapePass img t
        if sd.isEmpty then create_fallback_detections
        else
          { success := true, model := "yolo11n_simplified",
            method := "color_shape_detection", detections := sd,
            count := sd.length }
      else
        { success := true, model := "yolo11n_simplified",
          method := "color_shape_detection", detections := cd,
          count := cd.length }

end Yolo11n

/-- A raw box produced by the neural detector: corner coordinates in
pixels, confidence, and COCO class id. -/
structure RawBox where
  x1 : ℚ
  y1 : ℚ
  x2 : ℚ
  y2 : ℚ
  conf : ℚ
  cls : ℕ
  deriving Repr, DecidableEq

namespace YoloPure

/-- Environment of yolo_detector_pure.py `detect_objects`: module
availability flags, path existence, whether `YOLO(model)` + inference
succeed, and — when they do — the single result object (raw boxes, image
shape, the id → name table). -/
structure Env where
  ultralyticsAvailable : Bool
  imageExists : Bool
  modelExists : Bool
  modelLoads : Bool
  imagePath : String
  modelPath : String
  imgWidth : ℕ
  imgHeight : ℕ
  boxes : List RawBox
  names : ℕ → String

/-- The envelope returned when ultralytics cannot be imported at all
(`modelPath` stands for `os.path.basename(model_path)`). -/
def fallbackUnavailable (env : Env) : DetectionResult :=
  { success := true, model := env.modelPath, method := "fallback",
    detections := fallbackDetections3, count := 3 }

/-- The envelope returned when `YOLO(model_path)` or inference raises —
NOTE: unlike every other fallback table it holds only two detections
(toolbox and fire extinguisher), no oxygen tank. -/
def fallbackModelLoad (env : Env) : DetectionResult :=
  { success := true, model := env.modelPath, method := "fallback",
    detections :=
      [{ label := "toolbox", confidence := 0.85, x := 0.2, y := 0.2,
         width := 0.4, height := 0.3, color := objectColor "toolbox",
         context := generate_context "toolbox", forced := true },
       { label := "fire extinguisher", confidence := 0.92, x := 0.7, y := 0.3,
         width := 0.25, height := 0.5, color := objectColor "fire extinguisher",
         context := generate_context "fire extinguisher", forced := true }],
    count := 2 }

/-- The main box loop (lines 235-272): normalize, map the class through
`map_to_target_category`, and keep the detection only when it mapped into
`TARGET_CATEGORIES`. -/
def mapBox (env : Env) (b : RawBox) : Option Detection :=
  let x := b.x1 / (env.imgWidth : ℚ)
  let y := b.y1 / (env.imgHeight : ℚ)
  let width := (b.x2 - b.x1) / (env.imgWidth : ℚ)
  let height := (b.y2 - b.y1) / (env.imgHeight : ℚ)
  match map_to_target_category (env.names b.cls) (some b.cls) with
  | some space_class =>
    if space_class ∈ TARGET_CATEGORIES then
      some { label := space_class, confidence := b.conf, x := x, y := y,
             width := width, height := height,
             color := objectColor space_class,
             context := generate_context space_class,
             originalClass := some (env.names b.cls) }
    else none
  | none => none

/-- The `max_conf` scan of lines 277-283: running index, best index so
far, best confidence so far (initially 0), strict improvement only. -/
def argmaxGo : ℕ → ℕ → ℚ → List RawBox → ℕ
  | _, bestIdx, _, [] => bestIdx
  | i, bestIdx, bestConf, b :: bs =>
    if bestConf < b.conf then argmaxGo (i + 1) i b.conf bs
    else argmaxGo (i + 1) bestIdx bestConf bs

/-- Placeholder for the (unreachable) out-of-range list access. -/
def defaultRawBox : RawBox := ⟨0, 0, 0, 0, 0, 0⟩

/-- The forced classification of lines 276-320: relabel the most confident
raw box by its horizontal position and scale its confidence by 0.8. -/
def forcedDetection (env : Env) : Detection :=
  let b := env.boxes.getD (argmaxGo 0 0 0 env.boxes) defaultRawBox
  let x := b.x1 / (env.imgWidth : ℚ)
  let y := b.y1 / (env.imgHeight : ℚ)
  let width := (b.x2 - b.x1) / (env.imgWidth : ℚ)
  let height := (b.y2 - b.y1) / (env.imgHeight : ℚ)
  let space_class :=
    if x < 0.33 then "toolbox"
    else if x < 0.66 then "fire extinguisher"
    else "oxygen tank"
  { label := space_class, confidence := b.conf * 0.8, x := x, y := y,
    width := width, height := height, color := objectColor space_class,
    context := generate_context space_class, forced := true }

/-- The terminal "at least one toolbox" detection of lines 322-336. -/
def lastResortToolbox : Detection :=
  { label := "toolbox", confidence := 0.75, x := 0.3, y := 0.3,
    width := 0.4, height := 0.4, color := objectColor "toolbox",
    context := generate_context "toolbox", forced := true }

/-- `detect_objects` (yolo_detector_pure.py). -/
def detect_objects (env : Env) : DetectionResult :=
  if !env.ultralyticsAvailable then fallbackUnavailable env
  else if !env.imageExists then
    { success := false, detections := [], count := 0,
      error := "Image file not found: " ++ env.imagePath }
  else if !env.modelExists then
    { success := false, detections := [], count := 0,
      error := "Model file not found: " ++ env.modelPath }
  else if !env.modelLoads then fallbackModelLoad env
  else
    let dets := env.boxes.filterMap (mapBox env)
    let dets2 :=
      if dets.isEmpty && !env.boxes.isEmpty then dets ++ [forcedDetection env]
      else dets
    let dets3 := if dets2.isEmpty then dets2 ++ [lastResortToolbox] else dets2
    { success := true, model := env.modelPath, method := "yolov8",
      detections := dets3, count := dets3.length }

end YoloPure

namespace YoloDet

/-- What detect_objects_opencv reads out of a decoded image: dimensions
and the non-zero pixel counts of the three colour masks. -/
structure ImgCV where
  width : ℕ
  height : ℕ
  redPx : ℕ
  yellowPx : ℕ
  bluePx : ℕ
  deriving Repr, DecidableEq

/-- Environment of yolo_detector.py: the direct-import branch (raw boxes
and names exactly as in the pure detector), the Python-3.9 subprocess
branch collaborators, the decoded image for the OpenCV branch, and the
process's string hash function. -/
structure Env where
  importOk : Bool
  inferenceOk : Bool
  imgWidth : ℕ
  imgHeight : ℕ
  boxes : List RawBox
  names : ℕ → String
  imageExists : Bool
  modelExists : Bool
  python39Exists : Bool
  subprocessScriptExists : Bool
  subprocessResult : Option DetectionResult
  imagePath : String
  basename : String
  imgCV : Option ImgCV
  pyHash : String → ℤ

/-- The box-mapping loop of `detect_objects_yolo`'s direct branch (lines
137-174) — same mapping discipline as the pure detector but with no
forced relabelling afterwards. -/
def mapBoxY (env : Env) (b : RawBox) : Option Detection :=
  let x := b.x1 / (env.imgWidth : ℚ)
  let y := b.y1 / (env.imgHeight : ℚ)
  let width := (b.x2 - b.x1) / (env.imgWidth : ℚ)
  let height := (b.y2 - b.y1) / (env.imgHeight : ℚ)
  match map_to_target_category (env.names b.cls) (some b.cls) with
  | some space_class =>
    if space_class ∈ TARGET_CATEGORIES then
      some { label := space_class, confidence := b.conf, x := x, y := y,
             width := width, height := height,
             color := objectColor space_class,
             context := generate_context space_class,
             originalClass := some (env.names b.cls) }
    else none
  | none => none

/-- `detect_objects_yolo` (yolo_detector.py).  `none` stands for every
`return None` and for any exception swallowed by its handlers; the
subprocess detector is an external collaborator whose parsed output (or
failure) the environment supplies. -/
def detect_objects_yolo (env : Env) (modelName : String) :
    Option DetectionResult :=
  if env.importOk then
    if !env.inferenceOk then none
    else
      let dets := env.boxes.filterMap (mapBoxY env)
      if 0 < dets.length then
        some { success := true, model := modelName, method := "yolov8-direct",
               detections := dets, count := dets.length }
      else none
  else
    if !env.imageExists || !env.modelExists then none
    else if env.python39Exists && env.subprocessScriptExists then
      match env.subprocessResult with
      | some r => if r.success && 0 < r.count then some r else none
      | none => none
    else none

/-- The `max(color_counts.keys(), key=...)` scan: first key with the
strictly largest count, iterating in dict insertion order. -/
def maxColorKey : List (String × ℕ) → String → ℕ → String
  | [], best, _ => best
  | (k, v) :: rest, best, bestV =>
    if bestV < v then maxColorKey rest k v else maxColorKey rest best bestV

/-- `detect_objects_opencv` (yolo_detector.py).  It computes the colour
masks' pixel counts and their dominant colour, then — as in the source —
never uses them: the single emitted detection is derived from
`hash(basename)` alone. -/
def detect_objects_opencv (env : Env) (modelName : String) : DetectionResult :=
  if !env.imageExists then
    { success := false, detections := [], count := 0,
      error := "Image file not found: " ++ env.imagePath }
  else
    match env.imgCV with
    | none =>
      { success := false, detections := [], count := 0,
        error := "Failed to read image" }
    | some img =>
      let color_counts : List (String × ℕ) :=
        [("fire extinguisher", img.redPx), ("toolbox", img.yellowPx),
         ("oxygen tank", img.bluePx)]
      let _max_color := maxColorKey color_counts "" 0
      let file_hash := env.pyHash env.basename
      let x_pos : ℚ := 0.3 + ((file_hash % 40 : ℤ) : ℚ) / 100
      let y_pos : ℚ := 0.25 + ((file_hash % 50 : ℤ) : ℚ) / 100
      let object_type :=
        TARGET_CATEGORIES.getD (file_hash % 3).toNat "toolbox"
      { success := true, model := modelName, method := "opencv",
        detections :=
          [{ label := object_type, confidence := 0.95, x := x_pos,
             y := y_pos, width := 0.2, height := 0.3,
             color := objectColor object_type,
             context := generate_context object_type }],
        count := 1 }

/-- `detect_objects` (yolo_detector.py): YOLO first; `None` or an empty
count routes to the OpenCV stage. -/
def detect_objects (env : Env) (modelName : String) : DetectionResult :=
  match detect_objects_yolo env modelName with
  | some r => if 0 < r.count then r else detect_objects_opencv env modelName
  | none => detect_objects_opencv env modelName

end YoloDet

namespace MainPy

/-- Environment of main.py `detect_objects_simple`: it only ever checks
existence and hashes the basename. -/
structure Env where
  imageExists : Bool
  imagePath : String
  basename : String
  pyHash : String → ℤ

/-- `detect_objects_simple` (main.py). -/
def detect_objects_simple (env : Env) : DetectionResult :=
  if !env.imageExists then
    { success := false, detections := [], count := 0,
      error := "Image file not found: " ++ env.imagePath }
  else
    let file_hash := env.pyHash env.basename
    let x_pos : ℚ := 0.3 + ((file_hash % 40 : ℤ) : ℚ) / 100
    let y_pos : ℚ := 0.25 + ((file_hash % 50 : ℤ) : ℚ) / 100
    let object_type := TARGET_CATEGORIES.getD (file_hash % 3).toNat "toolbox"
    { success := true, method := "standalone",
      detections :=
        [{ label := object_type, confidence := 0.95, x := x_pos, y := y_pos,
           width := 0.2, height := 0.3, color := objectColor object_type,
           context := generate_context object_type }],
      count := 1 }

end MainPy

namespace BasicRoot

/-- What basic_detector.py (repository root) reads out of a decoded
image: dimensions and the contour list of each colour mask. -/
structure ImgB where
  width : ℕ
  height : ℕ
  fireContours : List Contour
  oxygenContours : List Contour
  toolboxContours : List Contour
  deriving Repr, DecidableEq

/-- Environment of `detect_basic`: OpenCV availability, path existence,
the decoded image, and the stream of `random.uniform(0.6, 0.95)` draws
(the n-th accepted contour consumes draw n). -/
structure Env where
  opencvAvailable : Bool
  imageExists : Bool
  imagePath : String
  img : Option ImgB
  randConf : ℕ → ℚ

/-- `create_fallback_detections` (root basic_detector.py). -/
def create_fallback_detections : DetectionResult :=
  { success := true, model := "basic_detector", method := "fallback",
    detections := fallbackDetections3, count := 3 }

/-- The contour loop of `detect_basic` (lines 112-144): labels iterate in
dict insertion order, contours below area 500 are skipped, each kept one
consumes the next random confidence draw.  `n` is the draw index. -/
def basicLoop (rc : ℕ → ℚ) (W H : ℕ) : ℕ → List (String × Contour) →
    List Detection
  | _, [] => []
  | n, (lab, c) :: rest =>
    if c.area < 500 then basicLoop rc W H n rest
    else
      { label := lab, confidence := rc n,
        x := (c.x : ℚ) / (W : ℚ), y := (c.y : ℚ) / (H : ℚ),
        width := (c.w : ℚ) / (W : ℚ), height := (c.h : ℚ) / (H : ℚ),
        color := objectColor lab, context := generate_context lab } ::
        basicLoop rc W H (n + 1) rest

/-- The flattened (label, contour) sequence in the order the Python dict
iterates: fire extinguisher, oxygen tank, toolbox. -/
def labelledContours (img : ImgB) : List (String × Contour) :=
  img.fireContours.map (fun c => ("fire extinguisher", c)) ++
  img.oxygenContours.map (fun c => ("oxygen tank", c)) ++
  img.toolboxContours.map (fun c => ("toolbox", c))

/-- `detect_basic` (root basic_detector.py).  An undecodable image raises
and lands in the exception handler, which returns the full fallback
envelope. -/
def detect_basic (env : Env) : DetectionResult :=
  if !env.imageExists then
    { success := false, detections := [], count := 0,
      error := "Image file not found: " ++ env.imagePath }
  else if env.opencvAvailable then
    match env.img with
    | none => create_fallback_detections
    | some img =>
      let dets := basicLoop env.randConf img.width img.height 0
        (labelledContours img)
      let dets2 := if dets.isEmpty then fallbackDetections3 else dets
      { success := true, model := "basic_detector",
        method := "color_detection", detections := dets2,
        count := dets2.length }
  else
    { success := true, model := "basic_detector", method := "fallback",
      detections := fallbackDetections3, count := 3 }

end BasicRoot

/-! ## Predicates used by the claims -/

/-- The schema invariant claimed for a single detection: target label,
confidence in [0,1], non-negative normalized box fully inside the image. -/
def goodDet (d : Detection) : Prop :=
  d.label ∈ TARGET_CATEGORIES ∧
  0 ≤ d.confidence ∧ d.confidence ≤ 1 ∧
  0 ≤ d.x ∧ 0 ≤ d.y ∧ 0 ≤ d.width ∧ 0 ≤ d.height ∧
  d.x + d.width ≤ 1 ∧ d.y + d.height ≤ 1

instance : DecidablePred goodDet := fun _ => by
  unfold goodDet
  infer_instance

/-- Boolean check of the `y + height ≤ 1` schema bound (used to exhibit a
violating envelope). -/
def heightInBounds (d : Detection) : Bool :=
  decide (d.y + d.height ≤ 1)

/-- The failure envelope the claims describe: unsuccessful, empty, with a
non-empty error string. -/
def failEnv (r : DetectionResult) : Prop :=
  r.success = false ∧ r.detections = [] ∧ r.count = 0 ∧ r.error ≠ ""

/-- What `cv2.boundingRect` and `cv2.contourArea` guarantee for a contour
extracted from a mask of a W×H image: non-negative area and a rectangle
inside the image. -/
def contourIn (W H : ℕ) (c : Contour) : Prop :=
  0 ≤ c.area ∧ c.x + c.w ≤ W ∧ c.y + c.h ≤ H

instance (W H : ℕ) : DecidablePred (contourIn W H) := fun _ => by
  unfold contourIn
  infer_instance

/-- Well-formedness of the OpenCV collaborator outputs for
yolo11n_detector.py: every contour of every mask lies inside the image. -/
def wf11 (img : Yolo11n.HSVImage) : Prop :=
  (∀ c ∈ img.redContours, contourIn img.width img.height c) ∧
  (∀ c ∈ img.blueContours, contourIn img.width img.height c) ∧
  (∀ c ∈ img.yellowContours, contourIn img.width img.height c) ∧
  (∀ c ∈ img.edgeContours, contourIn img.width img.height c)

/-- Well-formedness of the OpenCV collaborator outputs for the root
basic_detector.py. -/
def wfB (img : BasicRoot.ImgB) : Prop :=
  (∀ c ∈ img.fireContours, contourIn img.width img.height c) ∧
  (∀ c ∈ img.oxygenContours, contourIn img.width img.height c) ∧
  (∀ c ∈ img.toolboxContours, contourIn img.width img.height c)

/-! ## Concrete environments for counterexamples and witnesses -/

/-- Readable image, ultralytics importable, but the model file is absent. -/
def envPureNoModel : YoloPure.Env :=
  { ultralyticsAvailable := true, imageExists := true, modelExists := false,
    modelLoads := true, imagePath := "uploads/scan_1.jpg",
    modelPath := "models/yolov8s.pt", imgWidth := 640, imgHeight := 480,
    boxes := [], names := fun _ => "" }

/-- Readable image and model file, but `YOLO(model_path)` raises. -/
def envPureModelCrash : YoloPure.Env :=
  { ultralyticsAvailable := true, imageExists := true, modelExists := true,
    modelLoads := false, imagePath := "uploads/scan_2.jpg",
    modelPath := "models/yolov8s.pt", imgWidth := 640, imgHeight := 480,
    boxes := [], names := fun _ => "" }

/-- A successful inference whose single raw box ("person", class 0) fails
every mapping step; its left edge is at x = 0.1 of the image. -/
def envPurePerson : YoloPure.Env :=
  { ultralyticsAvailable := true, imageExists := true, modelExists := true,
    modelLoads := true, imagePath := "uploads/scan_3.jpg",
    modelPath := "models/yolov8s.pt", imgWidth := 100, imgHeight := 100,
    boxes := [⟨10, 10, 40, 60, 0.9, 0⟩], names := fun _ => "person" }

/-- yolo_detector.py environment where the YOLO branch fails entirely
(no ultralytics, no Python 3.9) and whose basename hashes to 49. -/
def envDetHash49 : YoloDet.Env :=
  { importOk := false, inferenceOk := false, imgWidth := 0, imgHeight := 0,
    boxes := [], names := fun _ => "", imageExists := true,
    modelExists := true, python39Exists := false,
    subprocessScriptExists := false, subprocessResult := none,
    imagePath := "uploads/sample.png", basename := "sample.png",
    imgCV := some ⟨640, 480, 5, 7, 9⟩, pyHash := fun _ => 49 }

/-- Same failing YOLO branch, same basename and hash as `envDetHash49`,
but entirely different pixel content behind the colour masks. -/
def envDetHash49b : YoloDet.Env :=
  { importOk := false, inferenceOk := false, imgWidth := 0, imgHeight := 0,
    boxes := [], names := fun _ => "", imageExists := true,
    modelExists := true, python39Exists := false,
    subprocessScriptExists := false, subprocessResult := none,
    imagePath := "uploads/sample.png", basename := "sample.png",
    imgCV := some ⟨1920, 1080, 4000, 3, 250⟩, pyHash := fun _ => 49 }

/-- A blank image for yolo11n_detector.py: no mask or edge contours. -/
def blankImg11 : Yolo11n.HSVImage :=
  { width := 640, height := 480, redContours := [], blueContours := [],
    yellowContours := [], edgeContours := [] }

/-- yolo11n environment holding the blank image. -/
def env11Blank : Yolo11n.Env :=
  { opencvAvailable := true, imageExists := true,
    imagePath := "uploads/blank.jpg", img := some blankImg11 }

/-- yolo11n image with one tall red region of area 600 (the heuristic
fire-extinguisher scenario). -/
def img11Red : Yolo11n.HSVImage :=
  { width := 640, height := 480,
    redContours := [⟨600, 10, 10, 30, 60⟩], blueContours := [],
    yellowContours := [], edgeContours := [] }

/-- yolo11n environment holding `img11Red`. -/
def env11Red : Yolo11n.Env :=
  { opencvAvailable := true, imageExists := true,
    imagePath := "uploads/red.jpg", img := some img11Red }

/-- The detection the colour pass produces from `img11Red` at threshold
0.25. -/
def detRed600 : Detection :=
  { label := "fire extinguisher", confidence := 0.56,
    x := 10 / 640, y := 10 / 480, width := 30 / 640, height := 60 / 480,
    color := "#f44336",
    context :=
      "Critical safety equipment. Check pressure gauge and ensure easy access." }

/-- root basic_detector.py image with one large yellow region. -/
def imgBYellow : BasicRoot.ImgB :=
  { width := 800, height := 600, fireContours := [],
    oxygenContours := [], toolboxContours := [⟨900, 20, 30, 120, 40⟩] }

/-- root basic_detector.py environment holding `imgBYellow`, with the
uniform draws pinned at 0.7. -/
def envBYellow : BasicRoot.Env :=
  { opencvAvailable := true, imageExists := true,
    imagePath := "uploads/yellow.jpg", img := some imgBYellow,
    randConf := fun _ => 0.7 }

/-- A missing-image environment for every entry point. -/
def env11Missing : Yolo11n.Env :=
  { opencvAvailable := true, imageExists := false,
    imagePath := "uploads/gone.jpg", img := none }

/-- Missing-image environment for the pure detector. -/
def envPureMissing : YoloPure.Env :=
  { ultralyticsAvailable := true, imageExists := false, modelExists := true,
    modelLoads := true, imagePath := "uploads/gone.jpg",
    modelPath := "models/yolov8s.pt", imgWidth := 0, imgHeight := 0,
    boxes := [], names := fun _ => "" }

/-- Missing-image environment for yolo_detector.py. -/
def envDetMissing : YoloDet.Env :=
  { importOk := false, inferenceOk := false, imgWidth := 0, imgHeight := 0,
    boxes := [], names := fun _ => "", imageExists := false,
    modelExists := true, python39Exists := false,
    subprocessScriptExists := false, subprocessResult := none,
    imagePath := "uploads/gone.jpg", basename := "gone.jpg",
    imgCV := none, pyHash := fun _ => 0 }

/-- Missing-image environment for main.py. -/
def envMainMissing : MainPy.Env :=
  { imageExists := false, imagePath := "uploads/gone.jpg",
    basename := "gone.jpg", pyHash := fun _ => 0 }

/-- Missing-image environment for the root basic detector. -/
def envBMissing : BasicRoot.Env :=
  { opencvAvailable := true, imageExists := false,
    imagePath := "uploads/gone.jpg", img := none, randConf := fun _ => 0.7 }

/-- The detection the root basic detector produces from `imgBYellow` with
draws pinned at 0.7. -/
def detYellow900 : Detection :=
  { label := "toolbox", confidence := 0.7,
    x := 20 / 800, y := 30 / 600, width := 120 / 800, height := 40 / 600,
    color := "#ffc107",
    context :=
      "Equipment storage. Ensure proper organization and inventory completion." }

/-! ## Theorems -/

/-- Claim C6: the Category Mapper applies its rules in the fixed order —
substring match on the lowercased raw label first, then the class-id
table, then the synonym sets — returning the first match and `none`
otherwise; and raw class "bottle" with a class id absent from the table
maps to "fire extinguisher" via the synonym step. -/
theorem claim_C6 :
    (∀ raw cid cat, firstCat TARGET_CATEGORIES (lowerStr raw) = some cat →
        map_to_target_category raw cid = some cat) ∧
    (∀ raw cid cat, firstCat TARGET_CATEGORIES (lowerStr raw) = none →
        YOLO_CLASS_MAPPING.lookup cid = some cat →
        map_to_target_category raw (some cid) = some cat) ∧
    (∀ raw cid, firstCat TARGET_CATEGORIES (lowerStr raw) = none →
        YOLO_CLASS_MAPPING.lookup cid = none →
        map_to_target_category raw (some cid) = synonymMatch (lowerStr raw)) ∧
    (∀ raw, firstCat TARGET_CATEGORIES (lowerStr raw) = none →
        map_to_target_category raw none = synonymMatch (lowerStr raw)) ∧
    firstCat TARGET_CATEGORIES (lowerStr "bottle") = none ∧
    YOLO_CLASS_MAPPING.lookup 999 = none ∧
    synonymMatch (lowerStr "bottle") = some "fire extinguisher" ∧
    map_to_target_category "bottle" (some 999) = some "fire extinguisher" := by
  refine ⟨?_, ?_, ?_, ?_, by decide, by decide, by decide, by decide⟩
  · intro raw cid cat h
    cases cid <;> simp only [map_to_target_category, h]
  · intro raw cid cat h1 h2
    simp only [map_to_target_category, h1, h2]
  · intro raw cid h1 h2
    simp only [map_to_target_category, h1, h2]
  · intro raw h1
    simp only [map_to_target_category, h1]

/-- Witness for C6 at a concrete input: "sports ball" has no substring
match, and class id 32 is mapped by the id table to "oxygen tank". -/
theorem claim_C6_witness :
    map_to_target_category "sports ball" (some 32) = some "oxygen tank" :=
  claim_C6.2.1 "sports ball" 32 "oxygen tank" (by decide) (by decide)

/-- Counterexample to claim C7: when `YOLO(model_path)` raises (readable
image, existing model file), the pure detector's synthetic fallback stage
is reached (`method = "fallback"`) yet emits only two detections — there
is no oxygen-tank entry at all. -/
theorem claim_C7_cex :
    (YoloPure.detect_objects envPureModelCrash).method = "fallback" ∧
    (YoloPure.detect_objects envPureModelCrash).count = 2 ∧
    (YoloPure.detect_objects envPureModelCrash).detections.map Detection.label
      = ["toolbox", "fire extinguisher"] := by
  decide

/-- Claim C7 as amended: the no-library and yolo11n fallback stages emit
exactly one detection per target category (3 in total) from the fixed
table `fallbackDetections3`, identically on every call, each confidence
in [0.75, 0.95]; the pure detector's model-load-failure fallback instead
emits exactly the first two table entries (toolbox, fire extinguisher —
no oxygen tank), also fixed and with confidences in [0.75, 0.95]. -/
theorem claim_C7 (e e' f : YoloPure.Env)
    (he : e.ultralyticsAvailable = false)
    (he' : e'.ultralyticsAvailable = false)
    (hf1 : f.ultralyticsAvailable = true) (hf2 : f.imageExists = true)
    (hf3 : f.modelExists = true) (hf4 : f.modelLoads = false) :
    Yolo11n.create_fallback_detections.detections = fallbackDetections3 ∧
    fallbackDetections3.map Detection.label = TARGET_CATEGORIES ∧
    Yolo11n.create_fallback_detections.count = 3 ∧
    (∀ d ∈ fallbackDetections3, 0.75 ≤ d.confidence ∧ d.confidence ≤ 0.95) ∧
    (YoloPure.detect_objects e).detections = fallbackDetections3 ∧
    (YoloPure.detect_objects e).detections
      = (YoloPure.detect_objects e').detections ∧
    (YoloPure.detect_objects f).detections.map Detection.label
      = ["toolbox", "fire extinguisher"] ∧
    (∀ d ∈ (YoloPure.detect_objects f).detections,
        0.75 ≤ d.confidence ∧ d.confidence ≤ 0.95) := by
  have hfall : ∀ g : YoloPure.Env, g.ultralyticsAvailable = false →
      YoloPure.detect_objects g = YoloPure.fallbackUnavailable g := by
    intro g hg
    simp [YoloPure.detect_objects, hg]
  have hcrash : YoloPure.detect_objects f = YoloPure.fallbackModelLoad f := by
    simp [YoloPure.detect_objects, hf1, hf2, hf3, hf4]
  refine ⟨by with_unfolding_all decide, by with_unfolding_all decide,
    by with_unfolding_all decide, by with_unfolding_all decide,
    ?_, ?_, ?_, ?_⟩
  · rw [hfall e he]
    rfl
  · rw [hfall e he, hfall e' he']
    rfl
  · rw [hcrash]
    rfl
  · rw [hcrash]
    simp only [YoloPure.fallbackModelLoad]
    with_unfolding_all decide

/-- Witness for C7 at concrete environments: the unavailable-library
fallback is the fixed three-entry table and the crash fallback lists
exactly toolbox and fire extinguisher. -/
theorem claim_C7_witness :
    (YoloPure.detect_objects
        { envPureModelCrash with ultralyticsAvailable := false }).detections
      = fallbackDetections3 ∧
    (YoloPure.detect_objects envPureModelCrash).detections.map Detection.label
      = ["toolbox", "fire extinguisher"] := by
  have h := claim_C7
    { envPureModelCrash with ultralyticsAvailable := false }
    { envPureModelCrash with ultralyticsAvailable := false }
    envPureModelCrash rfl rfl rfl rfl rfl rfl
  exact ⟨h.2.2.2.2.1, h.2.2.2.2.2.2.1⟩

/-- Counterexample to claim C1: the image path resolves to a readable
image, yet yolo_detector_pure.py `detect_objects` returns a failure
(success = false, zero detections), because the model file is absent —
this internal failure does not degrade to a later stage. -/
theorem claim_C1_cex :
    envPureNoModel.imageExists = true ∧
    (YoloPure.detect_objects envPureNoModel).success = false ∧
    (YoloPure.detect_objects envPureNoModel).count = 0 ∧
    (YoloPure.detect_objects envPureNoModel).detections = [] := by
  decide

/-- Claim C1 as amended: for every existing image,
yolo11n_detector.py `detect_with_color_and_size` returns success with at
least one detection unconditionally, and yolo_detector_pure.py
`detect_objects` does so provided ultralytics is unavailable or the model
file exists — a missing model file with ultralytics importable is instead
surfaced as a failure. -/
theorem claim_C1 (e1 : Yolo11n.Env) (t : ℚ) (h1 : e1.imageExists = true)
    (e2 : YoloPure.Env) (h2 : e2.imageExists = true)
    (h3 : e2.ultralyticsAvailable = false ∨ e2.modelExists = true) :
    ((Yolo11n.detect_with_color_and_size e1 t).success = true ∧
      1 ≤ (Yolo11n.detect_with_color_and_size e1 t).count) ∧
    ((YoloPure.detect_objects e2).success = true ∧
      1 ≤ (YoloPure.detect_objects e2).count) := by
  constructor
  · cases hcv : e1.opencvAvailable with
    | false =>
      simp [Yolo11n.detect_with_color_and_size, hcv,
        Yolo11n.create_fallback_detections]
    | true =>
      cases himg : e1.img with
      | none =>
        simp [Yolo11n.detect_with_color_and_size, hcv, h1, himg,
          Yolo11n.create_fallback_detections]
      | some img =>
        simp only [Yolo11n.detect_with_color_and_size, hcv, h1, himg,
          Bool.not_true, Bool.false_eq_true, if_false]
        cases hcp : Yolo11n.colorPass img t with
        | cons d ds => simp [hcp]
        | nil =>
          cases hsp : Yolo11n.shapePass img t with
          | cons d ds => simp [hcp, hsp]
          | nil =>
            simp [hcp, hsp, Yolo11n.create_fallback_detections]
  · rcases h3 with h3 | h3
    · simp [YoloPure.detect_objects, h3, YoloPure.fallbackUnavailable]
    · cases hua : e2.ultralyticsAvailable with
      | false =>
        simp [YoloPure.detect_objects, hua, YoloPure.fallbackUnavailable]
      | true =>
        cases hml : e2.modelLoads with
        | false =>
          simp [YoloPure.detect_objects, hua, h2, h3, hml,
            YoloPure.fallbackModelLoad]
        | true =>
          simp only [YoloPure.detect_objects, hua, h2, h3, hml,
            Bool.not_true, Bool.false_eq_true, if_false]
          cases hd : e2.boxes.filterMap (YoloPure.mapBox e2) with
          | nil =>
            cases hb : e2.boxes with
            | nil => simp [hd, hb]
            | cons b bs => simp [hd, hb]
          | cons d ds => simp [hd]

/-- Witness for C1: a red-region image for the heuristic detector and a
complete pure-detector environment both yield non-empty successes. -/
theorem claim_C1_witness :
    (Yolo11n.detect_with_color_and_size env11Red 0.25).success = true ∧
    1 ≤ (Yolo11n.detect_with_color_and_size env11Red 0.25).count ∧
    (YoloPure.detect_objects envPurePerson).success = true ∧
    1 ≤ (YoloPure.detect_objects envPurePerson).count := by
  have h := claim_C1 env11Red 0.25 rfl envPurePerson rfl (Or.inr rfl)
  exact ⟨h.1.1, h.1.2, h.2.1, h.2.2⟩

/-- A non-empty left part makes a string concatenation non-empty. -/
theorem append_ne_empty_left (a b : String) (h : a.data ≠ []) :
    a ++ b ≠ "" := by
  intro hc
  apply h
  have hd : a.data ++ b.data = ([] : List Char) := congrArg String.data hc
  exact (List.append_eq_nil.mp hd).1

/-- Counterexample to claim C3's "only failure surfaced" part: an
environment whose image path resolves to a readable image still gets a
failure envelope (with its own error text) from the pure detector when
the model file is missing — so the unreadable/missing-image condition is
not the only failure surfaced to the caller. -/
theorem claim_C3_cex :
    envPureNoModel.imageExists = true ∧
    (YoloPure.detect_objects envPureNoModel).success = false ∧
    (YoloPure.detect_objects envPureNoModel).error
      = "Model file not found: models/yolov8s.pt" := by
  decide

/-- Claim C3 as amended: whenever the input image path does not exist,
each detection entry point (in the configurations that reach the path
check: OpenCV importable for yolo11n, ultralytics importable for the pure
detector, a YOLO branch that fails for yolo_detector) returns
success = false with an empty detections list, count = 0 and a non-empty
error string; however this is not the only failure surfaced — a missing
model file is also surfaced as a failure by the pure detector. -/
theorem claim_C3 (e1 : Yolo11n.Env) (t : ℚ)
    (h1 : e1.imageExists = false) (h1' : e1.opencvAvailable = true)
    (e2 : YoloPure.Env) (h2 : e2.imageExists = false)
    (h2' : e2.ultralyticsAvailable = true)
    (e3 : YoloDet.Env) (mn : String) (h3 : e3.imageExists = false)
    (h3' : e3.importOk = false ∨ e3.inferenceOk = false)
    (e4 : MainPy.Env) (h4 : e4.imageExists = false)
    (e5 : BasicRoot.Env) (h5 : e5.imageExists = false) :
    failEnv (Yolo11n.detect_with_color_and_size e1 t) ∧
    failEnv (YoloPure.detect_objects e2) ∧
    failEnv (YoloDet.detect_objects e3 mn) ∧
    failEnv (MainPy.detect_objects_simple e4) ∧
    failEnv (BasicRoot.detect_basic e5) := by
  have hy : YoloDet.detect_objects_yolo e3 mn = none := by
    rcases h3' with h | h
    · simp [YoloDet.detect_objects_yolo, h, h3]
    · cases himp : e3.importOk <;>
        simp [YoloDet.detect_objects_yolo, himp, h, h3]
  refine ⟨?_, ?_, ?_, ?_, ?_⟩
  · simp only [Yolo11n.detect_with_color_and_size, h1, h1', Bool.not_true,
      Bool.not_false, Bool.false_eq_true, if_false, if_true]
    exact ⟨rfl, rfl, rfl, append_ne_empty_left _ _ (by decide)⟩
  · simp only [YoloPure.detect_objects, h2, h2', Bool.not_true,
      Bool.not_false, Bool.false_eq_true, if_false, if_true]
    exact ⟨rfl, rfl, rfl, append_ne_empty_left _ _ (by decide)⟩
  · simp only [YoloDet.detect_objects, hy, YoloDet.detect_objects_opencv,
      h3, Bool.not_false, if_true]
    exact ⟨rfl, rfl, rfl, append_ne_empty_left _ _ (by decide)⟩
  · simp only [MainPy.detect_objects_simple, h4, Bool.not_false, if_true]
    exact ⟨rfl, rfl, rfl, append_ne_empty_left _ _ (by decide)⟩
  · simp only [BasicRoot.detect_basic, h5, Bool.not_false, if_true]
    exact ⟨rfl, rfl, rfl, append_ne_empty_left _ _ (by decide)⟩

/-- Witness for C3: the concrete missing-image environments fail on all
five entry points. -/
theorem claim_C3_witness :
    (Yolo11n.detect_with_color_and_size env11Missing 0.25).success = false ∧
    (YoloPure.detect_objects envPureMissing).success = false ∧
    (YoloDet.detect_objects envDetMissing "yolov8s.pt").success = false ∧
    (MainPy.detect_objects_simple envMainMissing).success = false ∧
    (BasicRoot.detect_basic envBMissing).success = false := by
  have h := claim_C3 env11Missing 0.25 rfl rfl envPureMissing rfl rfl
    envDetMissing "yolov8s.pt" rfl (Or.inl rfl) envMainMissing rfl
    envBMissing rfl
  exact ⟨h.1.1, h.2.1.1, h.2.2.1.1, h.2.2.2.1.1, h.2.2.2.2.1⟩

/-- Claim C10: the OpenCV fallback path's emitted detections depend only
on the basename of the image path (through the process's string hash):
two environments with the same basename and hash function but arbitrary,
different readable pixel content produce identical detection values —
the computed colour masks never influence the output. -/
theorem claim_C10 (e₁ e₂ : YoloDet.Env) (mn : String)
    (hb : e₁.basename = e₂.basename) (hh : e₁.pyHash = e₂.pyHash)
    (h1 : e₁.imageExists = true) (h2 : e₂.imageExists = true)
    (i1 : e₁.imgCV.isSome = true) (i2 : e₂.imgCV.isSome = true) :
    (YoloDet.detect_objects_opencv e₁ mn).detections
      = (YoloDet.detect_objects_opencv e₂ mn).detections ∧
    (YoloDet.detect_objects_opencv e₁ mn).success = true := by
  obtain ⟨img1, hi1⟩ := Option.isSome_iff_exists.mp i1
  obtain ⟨img2, hi2⟩ := Option.isSome_iff_exists.mp i2
  constructor
  · simp only [YoloDet.detect_objects_opencv, h1, h2, hi1, hi2, hb, hh,
      Bool.not_true, Bool.false_eq_true, if_false]
  · simp [YoloDet.detect_objects_opencv, h1, hi1]

/-- Witness for C10: two environments sharing basename "sample.png" and
hash value 49 but wholly different mask pixel counts and image sizes give
the same detections. -/
theorem claim_C10_witness :
    (YoloDet.detect_objects_opencv envDetHash49 "yolov8s.pt").detections
      = (YoloDet.detect_objects_opencv envDetHash49b "yolov8s.pt").detections ∧
    (YoloDet.detect_objects_opencv envDetHash49 "yolov8s.pt").success = true :=
  claim_C10 envDetHash49 envDetHash49b "yolov8s.pt" rfl rfl rfl rfl rfl rfl

/-- Every envelope built by `detect_objects_yolo` itself satisfies
count = length; the subprocess passthrough inherits it from the
collaborator's envelope. -/
theorem yolo_stage_count_len (e : YoloDet.Env) (mn : String)
    (hsub : ∀ r, e.subprocessResult = some r → r.count = r.detections.length)
    (r : DetectionResult) (h : YoloDet.detect_objects_yolo e mn = some r) :
    r.count = r.detections.length := by
  unfold YoloDet.detect_objects_yolo at h
  dsimp only at h
  repeat' split at h
  all_goals first
    | (cases h; rfl)
    | (cases h; exact hsub _ (by assumption))
    | exact absurd h (by simp)

/-- Claim C9: in every result envelope returned by a detection entry
point — success or failure, any stage — the count field equals the length
of the detections list (for the subprocess passthrough of
yolo_detector.py this is inherited from the collaborator envelope, which
yolo_subprocess.py also builds with count = len(detections)). -/
theorem claim_C9 (esub : YoloDet.Env) (mn : String)
    (hsub : ∀ r, esub.subprocessResult = some r →
      r.count = r.detections.length) :
    (∀ e t, (Yolo11n.detect_with_color_and_size e t).count
        = (Yolo11n.detect_with_color_and_size e t).detections.length) ∧
    (∀ e, (YoloPure.detect_objects e).count
        = (YoloPure.detect_objects e).detections.length) ∧
    (∀ e, (BasicRoot.detect_basic e).count
        = (BasicRoot.detect_basic e).detections.length) ∧
    (∀ e mn2, (YoloDet.detect_objects_opencv e mn2).count
        = (YoloDet.detect_objects_opencv e mn2).detections.length) ∧
    (∀ e, (MainPy.detect_objects_simple e).count
        = (MainPy.detect_objects_simple e).detections.length) ∧
    (YoloDet.detect_objects esub mn).count
        = (YoloDet.detect_objects esub mn).detections.length := by
  refine ⟨?_, ?_, ?_, ?_, ?_, ?_⟩
  · intro e t
    unfold Yolo11n.detect_with_color_and_size
    dsimp only
    repeat' split
    all_goals rfl
  · intro e
    unfold YoloPure.detect_objects
    dsimp only
    repeat' split
    all_goals rfl
  · intro e
    unfold BasicRoot.detect_basic
    dsimp only
    repeat' split
    all_goals rfl
  · intro e mn2
    unfold YoloDet.detect_objects_opencv
    dsimp only
    repeat' split
    all_goals rfl
  · intro e
    unfold MainPy.detect_objects_simple
    dsimp only
    repeat' split
    all_goals rfl
  · cases hy : YoloDet.detect_objects_yolo esub mn with
    | none =>
      simp only [YoloDet.detect_objects, hy]
      unfold YoloDet.detect_objects_opencv
      dsimp only
      repeat' split
      all_goals rfl
    | some r =>
      simp only [YoloDet.detect_objects, hy]
      split
      · exact yolo_stage_count_len esub mn hsub r hy
      · unfold YoloDet.detect_objects_opencv
        repeat' split
        all_goals rfl

/-- Witness for C9 at a concrete environment (the hash-49 environment,
whose subprocess collaborator returns nothing). -/
theorem claim_C9_witness :
    (YoloDet.detect_objects envDetHash49 "yolov8s.pt").count
      = (YoloDet.detect_objects envDetHash49 "yolov8s.pt").detections.length ∧
    (MainPy.detect_objects_simple envMainMissing).count
      = (MainPy.detect_objects_simple envMainMissing).detections.length := by
  have h := claim_C9 envDetHash49 "yolov8s.pt" (by intro r hr; cases hr)
  exact ⟨h.2.2.2.2.2, h.2.2.2.2.1 envMainMissing⟩

/-- A quotient of natural-number casts is non-negative. -/
theorem div_cast_nonneg (a b : ℕ) : 0 ≤ (a : ℚ) / (b : ℚ) :=
  div_nonneg (by positivity) (by positivity)

/-- Normalizing two pixel lengths that fit in the image keeps their sum
at most one (the degenerate zero-size image divides by zero, giving 0). -/
theorem normPair_le_one {a b W : ℕ} (h : a + b ≤ W) :
    (a : ℚ) / (W : ℚ) + (b : ℚ) / (W : ℚ) ≤ 1 := by
  rcases Nat.eq_zero_or_pos W with hW | hW
  · subst hW
    norm_num
  · have hW' : (0 : ℚ) < (W : ℚ) := by exact_mod_cast hW
    rw [div_add_div_same, div_le_one hW']
    exact_mod_cast h

/-- The colour-pass confidence is always in [0, 0.95] for a contour of
non-negative area. -/
theorem colorConf_bounds {lab : String} {c : Contour} {conf : ℚ}
    (harea : 0 ≤ c.area) (h : Yolo11n.colorConf lab c = some conf) :
    0 ≤ conf ∧ conf ≤ 0.95 := by
  have h10 : (0 : ℚ) ≤ c.area / 10000 := by
    apply div_nonneg harea
    norm_num
  have h15 : (0 : ℚ) ≤ c.area / 15000 := by
    apply div_nonneg harea
    norm_num
  have h12 : (0 : ℚ) ≤ c.area / 12000 := by
    apply div_nonneg harea
    norm_num
  unfold Yolo11n.colorConf at h
  split_ifs at h <;> try exact Option.noConfusion h
  all_goals injection h with h
  all_goals subst h
  · exact ⟨le_min (by norm_num) (by linarith),
      (min_le_left _ _).trans (by norm_num)⟩
  · exact ⟨le_min (by norm_num) (by linarith),
      (min_le_left _ _).trans (by norm_num)⟩
  · exact ⟨le_min (by norm_num) (by linarith),
      (min_le_left _ _).trans (by norm_num)⟩

/-- A detection accepted by the colour pass satisfies the full schema
invariant, provided the contour lies inside the image. -/
theorem acceptColor_goodDet {lab : String} {W H : ℕ} {t : ℚ} {c : Contour}
    {d : Detection} (hlab : lab ∈ TARGET_CATEGORIES)
    (hc : contourIn W H c)
    (h : Yolo11n.acceptColor lab W H t c = some d) : goodDet d := by
  obtain ⟨ha, hxw, hyh⟩ := hc
  unfold Yolo11n.acceptColor at h
  split at h
  · exact Option.noConfusion h
  · split at h
    · exact Option.noConfusion h
    · rename_i conf hcc
      split at h
      · injection h with h
        subst h
        have hconf := colorConf_bounds ha hcc
        exact ⟨hlab, hconf.1, hconf.2.trans (by norm_num),
          div_cast_nonneg .., div_cast_nonneg .., div_cast_nonneg ..,
          div_cast_nonneg .., normPair_le_one hxw, normPair_le_one hyh⟩
      · exact Option.noConfusion h

/-- A detection accepted by the edge pass satisfies the full schema
invariant, provided the contour lies inside the image. -/
theorem acceptShape_goodDet {W H : ℕ} {t : ℚ} {c : Contour} {d : Detection}
    (hc : contourIn W H c)
    (h : Yolo11n.acceptShape W H t c = some d) : goodDet d := by
  obtain ⟨ha, hxw, hyh⟩ := hc
  unfold Yolo11n.acceptShape at h
  split at h
  · exact Option.noConfusion h
  · split at h
    · exact Option.noConfusion h
    · rename_i lab conf hsc
      have hp : lab ∈ TARGET_CATEGORIES ∧ 0 ≤ conf ∧ conf ≤ 1 := by
        unfold Yolo11n.shapeClass at hsc
        split_ifs at hsc <;> try exact Option.noConfusion hsc
        all_goals injection hsc with hsc
        all_goals injection hsc with hsc1 hsc2
        all_goals subst hsc1
        all_goals subst hsc2
        all_goals refine ⟨by decide, by norm_num, by norm_num⟩
      split at h
      · injection h with h
        subst h
        exact ⟨hp.1, hp.2.1, hp.2.2,
          div_cast_nonneg .., div_cast_nonneg .., div_cast_nonneg ..,
          div_cast_nonneg .., normPair_le_one hxw, normPair_le_one hyh⟩
      · exact Option.noConfusion h

/-- Membership in the colour-pass loop comes exactly from an accepted
contour of the processed list. -/
theorem mem_passColor {lab : String} {W H : ℕ} {t : ℚ} {d : Detection} :
    ∀ {cs : List Contour},
      d ∈ Yolo11n.passColor lab W H t cs ↔
        ∃ c ∈ cs, Yolo11n.acceptColor lab W H t c = some d := by
  intro cs
  induction cs with
  | nil => simp [Yolo11n.passColor]
  | cons c cs ih =>
    cases h : Yolo11n.acceptColor lab W H t c with
    | none =>
      simp only [Yolo11n.passColor, h, ih, List.mem_cons]
      constructor
      · rintro ⟨c', hc', hacc⟩
        exact ⟨c', Or.inr hc', hacc⟩
      · rintro ⟨c', hc' | hc', hacc⟩
        · subst hc'
          rw [h] at hacc
          exact Option.noConfusion hacc
        · exact ⟨c', hc', hacc⟩
    | some d' =>
      simp only [Yolo11n.passColor, h, List.mem_cons, ih]
      constructor
      · rintro (rfl | ⟨c', hc', hacc⟩)
        · exact ⟨c, Or.inl rfl, h⟩
        · exact ⟨c', Or.inr hc', hacc⟩
      · rintro ⟨c', hc' | hc', hacc⟩
        · subst hc'
          rw [h] at hacc
          injection hacc with e
          exact Or.inl e.symm
        · exact Or.inr ⟨c', hc', hacc⟩

/-- Every colour-pass detection of a well-formed image satisfies the
schema invariant. -/
theorem colorPass_goodDet {img : Yolo11n.HSVImage} {t : ℚ} (hwf : wf11 img) :
    ∀ d ∈ Yolo11n.colorPass img t, goodDet d := by
  intro d hd
  rcases List.mem_append.mp hd with hd' | hd'
  · rcases List.mem_append.mp hd' with hd'' | hd''
    · obtain ⟨c, hc, hacc⟩ := mem_passColor.mp hd''
      exact acceptColor_goodDet (by decide) (hwf.1 c hc) hacc
    · obtain ⟨c, hc, hacc⟩ := mem_passColor.mp hd''
      exact acceptColor_goodDet (by decide) (hwf.2.1 c hc) hacc
  · obtain ⟨c, hc, hacc⟩ := mem_passColor.mp hd'
    exact acceptColor_goodDet (by decide) (hwf.2.2.1 c hc) hacc

/-- Every edge-pass detection of a well-formed image satisfies the schema
invariant. -/
theorem shapePass_goodDet {img : Yolo11n.HSVImage} {t : ℚ} (hwf : wf11 img) :
    ∀ d ∈ Yolo11n.shapePass img t, goodDet d := by
  intro d hd
  obtain ⟨c, hc, hacc⟩ := List.mem_filterMap.mp hd
  exact acceptShape_goodDet (hwf.2.2.2 c hc) hacc

/-- The fixed fallback table satisfies the schema invariant. -/
theorem fallback3_goodDet : ∀ d ∈ fallbackDetections3, goodDet d := by
  with_unfolding_all decide

/-- Every detection of the root basic detector's contour loop satisfies
the schema invariant, given in-image contours and in-range uniform
draws. -/
theorem basicLoop_goodDet {rc : ℕ → ℚ} {W H : ℕ}
    (hrc : ∀ m, 0.6 ≤ rc m ∧ rc m ≤ 0.95) :
    ∀ (n : ℕ) (prs : List (String × Contour)),
      (∀ p ∈ prs, p.1 ∈ TARGET_CATEGORIES ∧ contourIn W H p.2) →
      ∀ d ∈ BasicRoot.basicLoop rc W H n prs, goodDet d := by
  intro n prs
  induction prs generalizing n with
  | nil =>
    intro _ d hd
    simp [BasicRoot.basicLoop] at hd
  | cons p ps ih =>
    intro hp d hd
    obtain ⟨lab, c⟩ := p
    simp only [BasicRoot.basicLoop] at hd
    split_ifs at hd
    · exact ih n (fun q hq => hp q (List.mem_cons_of_mem _ hq)) d hd
    · rcases List.mem_cons.mp hd with rfl | hdmem
      · have hpc := hp (lab, c) (List.mem_cons_self _ _)
        exact ⟨hpc.1, le_trans (by norm_num) (hrc n).1,
          (hrc n).2.trans (by norm_num),
          div_cast_nonneg .., div_cast_nonneg .., div_cast_nonneg ..,
          div_cast_nonneg .., normPair_le_one hpc.2.2.1,
          normPair_le_one hpc.2.2.2⟩
      · exact ih (n + 1) (fun q hq => hp q (List.mem_cons_of_mem _ hq)) d hdmem

/-- Counterexample to claim C2: routed through the full yolo_detector.py
entry point, the hash-49 environment yields a detection whose
y + height = 0.74 + 0.3 = 1.04 exceeds 1. -/
theorem claim_C2_cex :
    (YoloDet.detect_objects envDetHash49 "yolov8s.pt").detections.all
        heightInBounds = false ∧
    (YoloDet.detect_objects envDetHash49 "yolov8s.pt").success = true := by
  with_unfolding_all decide

/-- Every (label, contour) pair processed by the root basic detector has
a target label and an in-image contour, for a well-formed image. -/
theorem labelledContours_spec {img : BasicRoot.ImgB} (hwf : wfB img) :
    ∀ p ∈ BasicRoot.labelledContours img,
      p.1 ∈ TARGET_CATEGORIES ∧ contourIn img.width img.height p.2 := by
  intro p hp
  rcases List.mem_append.mp hp with hp' | hp'
  · rcases List.mem_append.mp hp' with hp2 | hp2
    · obtain ⟨c, hc, rfl⟩ := List.mem_map.mp hp2
      exact ⟨by simp [TARGET_CATEGORIES], hwf.1 c hc⟩
    · obtain ⟨c, hc, rfl⟩ := List.mem_map.mp hp2
      exact ⟨by simp [TARGET_CATEGORIES], hwf.2.1 c hc⟩
  · obtain ⟨c, hc, rfl⟩ := List.mem_map.mp hp'
    exact ⟨by simp [TARGET_CATEGORIES], hwf.2.2 c hc⟩

/-- Claim C2 as amended: every detection returned by the root basic
detector and by the yolo11n heuristic detector satisfies the full schema
invariant (target label, confidence in [0,1], non-negative normalized box
with x+width ≤ 1 and y+height ≤ 1), given the collaborator guarantees
(contours lie inside the image, `random.uniform(0.6, 0.95)` draws are in
range); the OpenCV filename-hash path satisfies all of it except the
bottom bound: there only y + height ≤ 1.04 (= 26/25) holds, and 1 can be
exceeded. -/
theorem claim_C2 (eb : BasicRoot.Env)
    (hwb : ∀ img, eb.img = some img → wfB img)
    (hrc : ∀ n, 0.6 ≤ eb.randConf n ∧ eb.randConf n ≤ 0.95)
    (e1 : Yolo11n.Env) (t : ℚ)
    (hw1 : ∀ img, e1.img = some img → wf11 img)
    (ec : YoloDet.Env) (mn : String) :
    (∀ d ∈ (BasicRoot.detect_basic eb).detections, goodDet d) ∧
    (∀ d ∈ (Yolo11n.detect_with_color_and_size e1 t).detections, goodDet d) ∧
    (∀ d ∈ (YoloDet.detect_objects_opencv ec mn).detections,
        d.label ∈ TARGET_CATEGORIES ∧ 0 ≤ d.confidence ∧ d.confidence ≤ 1 ∧
        0 ≤ d.x ∧ 0 ≤ d.y ∧ 0 ≤ d.width ∧ 0 ≤ d.height ∧
        d.x + d.width ≤ 1 ∧ d.y + d.height ≤ 26 / 25) := by
  refine ⟨?_, ?_, ?_⟩
  · cases hex : eb.imageExists with
    | false =>
      simp [BasicRoot.detect_basic, hex]
    | true =>
      cases hcv : eb.opencvAvailable with
      | false =>
        simp only [BasicRoot.detect_basic, hex, hcv, Bool.not_true,
          Bool.false_eq_true, if_false, if_true]
        exact fallback3_goodDet
      | true =>
        cases himg : eb.img with
        | none =>
          simp only [BasicRoot.detect_basic, hex, hcv, himg, Bool.not_true,
            Bool.false_eq_true, if_false, if_true,
            BasicRoot.create_fallback_detections]
          exact fallback3_goodDet
        | some img =>
          simp only [BasicRoot.detect_basic, hex, hcv, himg, Bool.not_true,
            Bool.false_eq_true, if_false, if_true]
          cases hloop : BasicRoot.basicLoop eb.randConf img.width img.height 0
              (BasicRoot.labelledContours img) with
          | nil =>
            simp only [hloop, List.isEmpty_nil, if_true]
            exact fallback3_goodDet
          | cons d0 ds =>
            simp only [hloop, List.isEmpty_cons, Bool.false_eq_true, if_false]
            rw [← hloop]
            exact basicLoop_goodDet hrc 0 _
              (labelledContours_spec (hwb img himg))
  · cases hcv : e1.opencvAvailable with
    | false =>
      simp only [Yolo11n.detect_with_color_and_size, hcv, Bool.not_false,
        if_true, Yolo11n.create_fallback_detections]
      exact fallback3_goodDet
    | true =>
      cases hex : e1.imageExists with
      | false =>
        simp [Yolo11n.detect_with_color_and_size, hcv, hex]
      | true =>
        cases himg : e1.img with
        | none =>
          simp only [Yolo11n.detect_with_color_and_size, hcv, hex, himg,
            Bool.not_true, Bool.false_eq_true, if_false,
            Yolo11n.create_fallback_detections]
          exact fallback3_goodDet
        | some img =>
          have hwf := hw1 img himg
          simp only [Yolo11n.detect_with_color_and_size, hcv, hex, himg,
            Bool.not_true, Bool.false_eq_true, if_false]
          cases hcp : Yolo11n.colorPass img t with
          | cons d0 ds =>
            simp only [hcp, List.isEmpty_cons, Bool.false_eq_true, if_false]
            rw [← hcp]
            exact colorPass_goodDet hwf
          | nil =>
            simp only [hcp, List.isEmpty_nil, if_true]
            cases hsp : Yolo11n.shapePass img t with
            | cons d0 ds =>
              simp only [hsp, List.isEmpty_cons, Bool.false_eq_true, if_false]
              rw [← hsp]
              exact shapePass_goodDet hwf
            | nil =>
              simp only [hsp, List.isEmpty_nil, if_true,
                Yolo11n.create_fallback_detections]
              exact fallback3_goodDet
  · cases hex : ec.imageExists with
    | false =>
      simp [YoloDet.detect_objects_opencv, hex]
    | true =>
      cases himg : ec.imgCV with
      | none =>
        simp [YoloDet.detect_objects_opencv, hex, himg]
      | some img =>
        simp only [YoloDet.detect_objects_opencv, hex, himg, Bool.not_true,
          Bool.false_eq_true, if_false]
        intro d hd
        rw [List.mem_singleton] at hd
        subst hd
        set fh := ec.pyHash ec.basename with hfh
        have h40a : (0 : ℤ) ≤ fh % 40 := Int.emod_nonneg fh (by norm_num)
        have h40b : fh % 40 < 40 := Int.emod_lt_of_pos fh (by norm_num)
        have h50a : (0 : ℤ) ≤ fh % 50 := Int.emod_nonneg fh (by norm_num)
        have h50b : fh % 50 < 50 := Int.emod_lt_of_pos fh (by norm_num)
        have h3a : (0 : ℤ) ≤ fh % 3 := Int.emod_nonneg fh (by norm_num)
        have h3b : fh % 3 < 3 := Int.emod_lt_of_pos fh (by norm_num)
        have hq40a : (0 : ℚ) ≤ ((fh % 40 : ℤ) : ℚ) := by exact_mod_cast h40a
        have hq40b : ((fh % 40 : ℤ) : ℚ) ≤ 39 := by
          have : fh % 40 ≤ 39 := by omega
          exact_mod_cast this
        have hq50a : (0 : ℚ) ≤ ((fh % 50 : ℤ) : ℚ) := by exact_mod_cast h50a
        have hq50b : ((fh % 50 : ℤ) : ℚ) ≤ 49 := by
          have : fh % 50 ≤ 49 := by omega
          exact_mod_cast this
        have hlab : TARGET_CATEGORIES.getD (fh % 3).toNat "toolbox"
            ∈ TARGET_CATEGORIES := by
          have hn : (fh % 3).toNat = 0 ∨ (fh % 3).toNat = 1 ∨
              (fh % 3).toNat = 2 := by omega
          rcases hn with hn | hn | hn <;> rw [hn] <;> decide
        refine ⟨hlab, by norm_num, by norm_num, ?_, ?_, by norm_num,
          by norm_num, ?_, ?_⟩
        · show (0 : ℚ) ≤ 0.3 + ((fh % 40 : ℤ) : ℚ) / 100
          have : (0 : ℚ) ≤ ((fh % 40 : ℤ) : ℚ) / 100 := by positivity
          linarith
        · show (0 : ℚ) ≤ 0.25 + ((fh % 50 : ℤ) : ℚ) / 100
          have : (0 : ℚ) ≤ ((fh % 50 : ℤ) : ℚ) / 100 := by positivity
          linarith
        · show 0.3 + ((fh % 40 : ℤ) : ℚ) / 100 + 0.2 ≤ 1
          have : ((fh % 40 : ℤ) : ℚ) / 100 ≤ 39 / 100 :=
            (div_le_div_iff_of_pos_right (by norm_num)).mpr hq40b
          linarith
        · show 0.25 + ((fh % 50 : ℤ) : ℚ) / 100 + 0.3 ≤ 26 / 25
          have : ((fh % 50 : ℤ) : ℚ) / 100 ≤ 49 / 100 :=
            (div_le_div_iff_of_pos_right (by norm_num)).mpr hq50b
          linarith

/-- Witness for C2: the concrete yellow-region and red-region detections
produced by the basic and heuristic detectors satisfy the schema
invariant. -/
theorem claim_C2_witness : goodDet detYellow900 ∧ goodDet detRed600 := by
  have h := claim_C2 envBYellow
    (by
      intro img himg
      cases himg
      unfold wfB
      with_unfolding_all decide)
    (by
      intro n
      constructor <;> norm_num [envBYellow])
    env11Red 0.25
    (by
      intro img himg
      cases himg
      unfold wf11
      with_unfolding_all decide)
    envDetHash49 "yolov8s.pt"
  exact ⟨h.1 detYellow900 (by with_unfolding_all decide),
    h.2.1 detRed600 (by with_unfolding_all decide)⟩

/-- What acceptance in the colour pass means for the red mask. -/
theorem acceptColor_fire {W H : ℕ} {t : ℚ} {c : Contour} {d : Detection}
    (h : Yolo11n.acceptColor "fire extinguisher" W H t c = some d) :
    d.label = "fire extinguisher" ∧ aspectOf c < 0.8 ∧ 50 < c.h ∧
    d.confidence = min 0.95 (0.5 + c.area / 10000) ∧ t < d.confidence := by
  unfold Yolo11n.acceptColor at h
  split at h
  · exact Option.noConfusion h
  · split at h
    · exact Option.noConfusion h
    · rename_i conf hcc
      split at h
      · rename_i ht
        injection h with h
        subst h
        unfold Yolo11n.colorConf at hcc
        rw [if_pos (by with_unfolding_all rfl)] at hcc
        split at hcc
        · rename_i hshape
          injection hcc with hcc
          subst hcc
          exact ⟨rfl, hshape.1, hshape.2, rfl, ht⟩
        · exact Option.noConfusion hcc
      · exact Option.noConfusion h

/-- What acceptance in the colour pass means for the blue mask. -/
theorem acceptColor_oxygen {W H : ℕ} {t : ℚ} {c : Contour} {d : Detection}
    (h : Yolo11n.acceptColor "oxygen tank" W H t c = some d) :
    d.label = "oxygen tank" ∧ 0.5 < aspectOf c ∧ aspectOf c < 1.5 ∧
    d.confidence = min 0.90 (0.5 + c.area / 15000) ∧ t < d.confidence := by
  unfold Yolo11n.acceptColor at h
  split at h
  · exact Option.noConfusion h
  · split at h
    · exact Option.noConfusion h
    · rename_i conf hcc
      split at h
      · rename_i ht
        injection h with h
        subst h
        unfold Yolo11n.colorConf at hcc
        rw [if_neg (by with_unfolding_all decide),
          if_pos (by with_unfolding_all rfl)] at hcc
        split at hcc
        · rename_i hshape
          injection hcc with hcc
          subst hcc
          exact ⟨rfl, hshape.1, hshape.2, rfl, ht⟩
        · exact Option.noConfusion hcc
      · exact Option.noConfusion h

/-- What acceptance in the colour pass means for the yellow mask. -/
theorem acceptColor_toolbox {W H : ℕ} {t : ℚ} {c : Contour} {d : Detection}
    (h : Yolo11n.acceptColor "toolbox" W H t c = some d) :
    d.label = "toolbox" ∧ 0.8 < aspectOf c ∧ 50 < c.w ∧
    d.confidence = min 0.92 (0.5 + c.area / 12000) ∧ t < d.confidence := by
  unfold Yolo11n.acceptColor at h
  split at h
  · exact Option.noConfusion h
  · split at h
    · exact Option.noConfusion h
    · rename_i conf hcc
      split at h
      · rename_i ht
        injection h with h
        subst h
        unfold Yolo11n.colorConf at hcc
        rw [if_neg (by with_unfolding_all decide),
          if_neg (by with_unfolding_all decide),
          if_pos (by with_unfolding_all rfl)] at hcc
        split at hcc
        · rename_i hshape
          injection hcc with hcc
          subst hcc
          exact ⟨rfl, hshape.1, hshape.2, rfl, ht⟩
        · exact Option.noConfusion hcc
      · exact Option.noConfusion h

/-- Claim C8: every detection accepted by the colour-band pass comes from
a contour passing its category-specific shape filter (fire extinguisher:
aspect ratio < 0.8 and height > 50px; oxygen tank: 0.5 < aspect ratio
< 1.5; toolbox: aspect ratio > 0.8 and width > 50px), and its confidence
is the saturating area formula of its category — clipped at a maximum
strictly below 1 — and strictly above the caller-supplied threshold. -/
theorem claim_C8 (img : Yolo11n.HSVImage) (t : ℚ) (d : Detection)
    (hd : d ∈ Yolo11n.colorPass img t) :
    ∃ c : Contour,
      ((d.label = "fire extinguisher" ∧ c ∈ img.redContours ∧
          aspectOf c < 0.8 ∧ 50 < c.h ∧
          d.confidence = min 0.95 (0.5 + c.area / 10000)) ∨
        (d.label = "oxygen tank" ∧ c ∈ img.blueContours ∧
          0.5 < aspectOf c ∧ aspectOf c < 1.5 ∧
          d.confidence = min 0.90 (0.5 + c.area / 15000)) ∨
        (d.label = "toolbox" ∧ c ∈ img.yellowContours ∧
          0.8 < aspectOf c ∧ 50 < c.w ∧
          d.confidence = min 0.92 (0.5 + c.area / 12000))) ∧
      t < d.confidence ∧ d.confidence < 1 := by
  rcases List.mem_append.mp hd with hd' | hd'
  · rcases List.mem_append.mp hd' with hd2 | hd2
    · obtain ⟨c, hc, hacc⟩ := mem_passColor.mp hd2
      obtain ⟨hl, hA, hB, hconf, ht⟩ := acceptColor_fire hacc
      refine ⟨c, Or.inl ⟨hl, hc, hA, hB, hconf⟩, ht, ?_⟩
      rw [hconf]
      exact (min_le_left _ _).trans_lt (by norm_num)
    · obtain ⟨c, hc, hacc⟩ := mem_passColor.mp hd2
      obtain ⟨hl, hA, hB, hconf, ht⟩ := acceptColor_oxygen hacc
      refine ⟨c, Or.inr (Or.inl ⟨hl, hc, hA, hB, hconf⟩), ht, ?_⟩
      rw [hconf]
      exact (min_le_left _ _).trans_lt (by norm_num)
  · obtain ⟨c, hc, hacc⟩ := mem_passColor.mp hd'
    obtain ⟨hl, hA, hB, hconf, ht⟩ := acceptColor_toolbox hacc
    refine ⟨c, Or.inr (Or.inr ⟨hl, hc, hA, hB, hconf⟩), ht, ?_⟩
    rw [hconf]
    exact (min_le_left _ _).trans_lt (by norm_num)

/-- Witness for C8: the red-region detection of `img11Red` is strictly
above the 0.25 threshold and strictly below 1. -/
theorem claim_C8_witness :
    (0.25 : ℚ) < detRed600.confidence ∧ detRed600.confidence < 1 := by
  obtain ⟨c, _, h2, h3⟩ :=
    claim_C8 img11Red 0.25 detRed600 (by with_unfolding_all decide)
  exact ⟨h2, h3⟩

/-- Claim C5: the pipelines try their stages in fixed order, each at most
once.  In yolo_detector.py, a YOLO-stage failure (`None`) or empty count
routes to the OpenCV stage instead of aborting, and a non-empty YOLO
result is returned as is.  In yolo11n_detector.py the result is entirely
determined by the first non-empty stage (colour pass, then edge pass),
and when both are empty the result is the synthetic fallback envelope
with method = "fallback". -/
theorem claim_C5 (e : YoloDet.Env) (mn : String)
    (e1 : Yolo11n.Env) (t : ℚ)
    (hcv : e1.opencvAvailable = true) (hex : e1.imageExists = true) :
    (YoloDet.detect_objects_yolo e mn = none →
        YoloDet.detect_objects e mn = YoloDet.detect_objects_opencv e mn) ∧
    (∀ r, YoloDet.detect_objects_yolo e mn = some r → 0 < r.count →
        YoloDet.detect_objects e mn = r) ∧
    (∀ r, YoloDet.detect_objects_yolo e mn = some r → r.count = 0 →
        YoloDet.detect_objects e mn = YoloDet.detect_objects_opencv e mn) ∧
    (∀ img, e1.img = some img → Yolo11n.colorPass img t ≠ [] →
        (Yolo11n.detect_with_color_and_size e1 t).detections
          = Yolo11n.colorPass img t) ∧
    (∀ img, e1.img = some img → Yolo11n.colorPass img t = [] →
        Yolo11n.shapePass img t ≠ [] →
        (Yolo11n.detect_with_color_and_size e1 t).detections
          = Yolo11n.shapePass img t) ∧
    (∀ img, e1.img = some img → Yolo11n.colorPass img t = [] →
        Yolo11n.shapePass img t = [] →
        Yolo11n.detect_with_color_and_size e1 t
            = Yolo11n.create_fallback_detections ∧
          (Yolo11n.detect_with_color_and_size e1 t).method = "fallback" ∧
          (Yolo11n.detect_with_color_and_size e1 t).detections
            = fallbackDetections3) := by
  refine ⟨?_, ?_, ?_, ?_, ?_, ?_⟩
  · intro hy
    simp [YoloDet.detect_objects, hy]
  · intro r hy hc
    simp [YoloDet.detect_objects, hy, hc]
  · intro r hy hc
    simp [YoloDet.detect_objects, hy, hc]
  · intro img himg hne
    cases hcp : Yolo11n.colorPass img t with
    | nil => exact absurd hcp hne
    | cons a as =>
      simp [Yolo11n.detect_with_color_and_size, hcv, hex, himg, hcp]
  · intro img himg hcp hne
    cases hsp : Yolo11n.shapePass img t with
    | nil => exact absurd hsp hne
    | cons a as =>
      simp [Yolo11n.detect_with_color_and_size, hcv, hex, himg, hcp, hsp]
  · intro img himg hcp hsp
    have hres : Yolo11n.detect_with_color_and_size e1 t
        = Yolo11n.create_fallback_detections := by
      simp [Yolo11n.detect_with_color_and_size, hcv, hex, himg, hcp, hsp]
    exact ⟨hres, by rw [hres]; rfl, by rw [hres]; rfl⟩

/-- Witness for C5: the hash-49 environment's YOLO stage fails, routing
to the OpenCV stage, and the blank image exhausts both heuristic passes,
landing on the synthetic fallback. -/
theorem claim_C5_witness :
    YoloDet.detect_objects envDetHash49 "yolov8s.pt"
      = YoloDet.detect_objects_opencv envDetHash49 "yolov8s.pt" ∧
    Yolo11n.detect_with_color_and_size env11Blank 0.25
      = Yolo11n.create_fallback_detections := by
  have h := claim_C5 envDetHash49 "yolov8s.pt" env11Blank 0.25 rfl rfl
  exact ⟨h.1 rfl, (h.2.2.2.2.2 blankImg11 rfl rfl rfl).1⟩

/-- A detection kept by the pure detector's mapping loop carries exactly
the label the Category Mapper assigned to its raw box. -/
theorem mapBox_label {ep : YoloPure.Env} {b : RawBox} {d : Detection}
    (h : YoloPure.mapBox ep b = some d) :
    map_to_target_category (ep.names b.cls) (some b.cls) = some d.label := by
  unfold YoloPure.mapBox at h
  split at h
  · rename_i lab hm
    split at h
    · injection h with h
      subst h
      exact hm
    · exact Option.noConfusion h
  · exact Option.noConfusion h

/-- Same fact for the yolo_detector.py direct branch. -/
theorem mapBoxY_label {e : YoloDet.Env} {b : RawBox} {d : Detection}
    (h : YoloDet.mapBoxY e b = some d) :
    map_to_target_category (e.names b.cls) (some b.cls) = some d.label := by
  unfold YoloDet.mapBoxY at h
  split at h
  · rename_i lab hm
    split at h
    · injection h with h
      subst h
      exact hm
    · exact Option.noConfusion h
  · exact Option.noConfusion h

/-- Counterexample to claim C4: a raw "person" box (class 0) that fails
all three mapping steps is not discarded by the pure detector — it is
relabelled to "toolbox" with forced = true and appears in the final
result. -/
theorem claim_C4_cex :
    map_to_target_category "person" (some 0) = none ∧
    (YoloPure.detect_objects envPurePerson).detections.map Detection.label
      = ["toolbox"] ∧
    (YoloPure.detect_objects envPurePerson).detections.map Detection.forced
      = [true] ∧
    (YoloPure.detect_objects envPurePerson).success = true := by
  with_unfolding_all decide

/-- Claim C4 as amended: in the yolo_detector.py direct branch and in the
pure detector's mapping loop, every emitted detection's label comes from
a successful Category-Mapper mapping of its raw box, and when at least
one raw box maps, unmapped raw detections are simply dropped; but when no
raw box maps and raw boxes exist, the pure detector relabels its most
confident raw box to a position-based target category (forced = true)
instead of dropping it. -/
theorem claim_C4 (e : YoloDet.Env) (ep : YoloPure.Env)
    (hp1 : ep.ultralyticsAvailable = true) (hp2 : ep.imageExists = true)
    (hp3 : ep.modelExists = true) (hp4 : ep.modelLoads = true) :
    (∀ d ∈ e.boxes.filterMap (YoloDet.mapBoxY e),
        ∃ b ∈ e.boxes,
          map_to_target_category (e.names b.cls) (some b.cls)
            = some d.label) ∧
    (∀ d ∈ ep.boxes.filterMap (YoloPure.mapBox ep),
        ∃ b ∈ ep.boxes,
          map_to_target_category (ep.names b.cls) (some b.cls)
            = some d.label) ∧
    (ep.boxes.filterMap (YoloPure.mapBox ep) ≠ [] →
        (YoloPure.detect_objects ep).detections
          = ep.boxes.filterMap (YoloPure.mapBox ep)) ∧
    (ep.boxes.filterMap (YoloPure.mapBox ep) = [] → ep.boxes ≠ [] →
        (YoloPure.detect_objects ep).detections
            = [YoloPure.forcedDetection ep] ∧
          (YoloPure.forcedDetection ep).forced = true) := by
  refine ⟨?_, ?_, ?_, ?_⟩
  · intro d hd
    obtain ⟨b, hb, hmap⟩ := List.mem_filterMap.mp hd
    exact ⟨b, hb, mapBoxY_label hmap⟩
  · intro d hd
    obtain ⟨b, hb, hmap⟩ := List.mem_filterMap.mp hd
    exact ⟨b, hb, mapBox_label hmap⟩
  · intro hne
    cases hd : ep.boxes.filterMap (YoloPure.mapBox ep) with
    | nil => exact absurd hd hne
    | cons a as =>
      simp [YoloPure.detect_objects, hp1, hp2, hp3, hp4, hd]
  · intro hd hb
    cases hbb : ep.boxes with
    | nil => exact absurd hbb hb
    | cons b bs =>
      have hbe : ep.boxes.isEmpty = false := by
        rw [hbb]
        rfl
      constructor
      · simp [YoloPure.detect_objects, hp1, hp2, hp3, hp4, hd, hbe]
      · rfl

/-- Witness for C4: the "person" environment has an empty mapping loop
and a non-empty box list, so the forced relabelling branch fires. -/
theorem claim_C4_witness :
    (YoloPure.detect_objects envPurePerson).detections
      = [YoloPure.forcedDetection envPurePerson] ∧
    (YoloPure.forcedDetection envPurePerson).forced = true := by
  have h := claim_C4 envDetHash49 envPurePerson rfl rfl rfl rfl
  exact h.2.2.2 (by with_unfolding_all decide) (by decide)
